import Mathlib

/-!
Shallow embedding of `addons/stock/models/stock_inventory.py` (Odoo stock
inventory adjustment engine) and proofs of the specification claims.

Quantities are modelled as exact rationals (`ℚ`); the Odoo float helpers
`float_round`, `float_is_zero` and `float_compare` from
`odoo/tools/float_utils.py` are modelled on exact rationals with HALF-UP
(ties away from zero) rounding.  Database records become Lean structures,
recordsets become lists, and the external ORM lookups (`browse`, related
records) become explicit lookup functions passed as parameters.
-/

set_option linter.all false

/-- HALF-UP rounding of a rational to an integer: nearest integer, ties
rounded away from zero (the semantics of Odoo float rounding). -/
def roundHalfUp (x : ℚ) : ℤ :=
  if 0 ≤ x then ⌊x + 1/2⌋ else -⌊-x + 1/2⌋

/-- Model of `odoo.tools.float_round(value, precision_rounding=r)`:
round `value` to the nearest multiple of `r`. -/
def float_round (value r : ℚ) : ℚ :=
  (roundHalfUp (value / r) : ℚ) * r

/-- Model of `odoo.tools.float_is_zero(value, precision_rounding=r)`. -/
def float_is_zero (value r : ℚ) : Bool :=
  |float_round value r| < r

/-- Model of `odoo.tools.float_compare(a, b, precision_rounding=r)`:
round both values, return -1/0/1. -/
def float_compare (a b r : ℚ) : Int :=
  let ra := float_round a r
  let rb := float_round b r
  if float_is_zero (ra - rb) r then 0
  else if ra - rb < 0 then -1 else 1

/-- Inventory lifecycle states (`stock.inventory.state`). -/
inductive InvState
  | draft
  | confirm
  | cancel
  | done
deriving DecidableEq, Repr

/-- Stock move states (only the distinction used here). -/
inductive MoveState
  | confirmed
  | done
deriving DecidableEq, Repr

/-- Product tracking (`product.product.tracking`). -/
inductive Tracking
  | none
  | lot
  | serial
deriving DecidableEq, Repr

/-- `stock.inventory.prefill_counted_quantity` selection. -/
inductive Prefill
  | counted
  | zero
deriving DecidableEq, Repr

/-- Hard errors raised by the engine (`UserError` conditions). -/
inductive StockError
  | negativeQty
  | duplicateLine
deriving DecidableEq, Repr

/-- Unit of measure: only the fields read by this module. -/
structure Uom where
  id : Nat
  rounding : ℚ
  category : Nat
deriving DecidableEq, Repr

/-- `product.product`: the fields read by this module.
`property_stock_inventory` is the id of the product's virtual
inventory-adjustment location. -/
structure Product where
  id : Nat
  uom : Uom
  tracking : Tracking
  active : Bool
  property_stock_inventory : Nat
deriving DecidableEq, Repr

/-- `stock.location`: the fields read by the cyclic-count scheduler.
`parent_path` is the list of strict-ancestor ids, i.e. the Python
`parent_path.split('/')[:-2]`. -/
structure StockLocation where
  id : Nat
  parent_path : List Nat
  next_inventory_date : Option Nat
  company_id : Nat
deriving DecidableEq, Repr

/-- A `stock.quant` ledger record as read by `_get_quantities`. -/
structure Quant where
  product : Product
  location_id : Nat
  lot_id : Option Nat
  package_id : Option Nat
  owner_id : Option Nat
  company_id : Nat
  quantity : ℚ
deriving DecidableEq, Repr

/-- The 5-tuple dimension key used to group quants. -/
structure QuantKey where
  product_id : Nat
  location_id : Nat
  lot_id : Option Nat
  package_id : Option Nat
  owner_id : Option Nat
deriving DecidableEq, Repr

/-- `stock.inventory.line`: the persisted fields read by this module.
The related `product_id` record is embedded as `product` (the line stores
its id through `product.id`). -/
structure InventoryLine where
  id : Nat
  inventory_id : Nat
  product : Product
  location_id : Nat
  prod_lot_id : Option Nat
  package_id : Option Nat
  partner_id : Option Nat
  product_qty : ℚ
  theoretical_qty : ℚ
  product_uom_id : Nat
  inventory_date : Nat
deriving DecidableEq, Repr

/-- The embedded move line of a generated move (`move_line_ids` one2many
values from `InventoryLine._get_move_values`). -/
structure MoveLine where
  product_id : Nat
  lot_id : Option Nat
  product_uom_qty : ℚ
  product_uom_id : Nat
  qty_done : ℚ
  package_id : Option Nat
  result_package_id : Option Nat
  location_id : Nat
  location_dest_id : Nat
  owner_id : Option Nat
deriving DecidableEq, Repr

/-- A generated `stock.move` (the values from
`InventoryLine._get_move_values`). -/
structure Move where
  name : String
  product_id : Nat
  product_uom : Nat
  product_uom_qty : ℚ
  date : Nat
  company_id : Nat
  inventory_id : Nat
  state : MoveState
  restrict_partner_id : Option Nat
  location_id : Nat
  location_dest_id : Nat
  move_line : MoveLine
deriving DecidableEq, Repr

/-- `stock.inventory`: the fields read by this module.  Dates are modelled
as abstract natural-number timestamps. -/
structure Inventory where
  id : Nat
  name : String
  date : Nat
  state : InvState
  company_id : Nat
  location_ids : List Nat
  product_ids : List Nat
  lot_ids : List Nat
  start_empty : Bool
  prefill_counted_quantity : Prefill
  exhausted : Bool
  is_conflict_inventory : Bool
  line_ids : List InventoryLine
  move_ids : List Move
deriving DecidableEq, Repr

/-- The per-line difference (`InventoryLine._compute_difference`):
`difference_qty = product_qty - theoretical_qty`. -/
def InventoryLine.difference_qty (l : InventoryLine) : ℚ :=
  l.product_qty - l.theoretical_qty

/-- The dimension key of an inventory line (the 5-tuple used by
`_check_no_duplicate_line` together with `inventory_id`). -/
def InventoryLine.dimensionKey (l : InventoryLine) : QuantKey :=
  ⟨l.product.id, l.location_id, l.prod_lot_id, l.package_id, l.partner_id⟩

/-- The grouping key of a quant, as built by `Inventory._get_quantities`. -/
def Quant.key (q : Quant) : QuantKey :=
  ⟨q.product.id, q.location_id, q.lot_id, q.package_id, q.owner_id⟩

/-- The quant search domain built in `Inventory._get_quantities`:
company and candidate-location restriction, then
  - if `prefill_counted_quantity == 'zero'`: only active products,
  - if `lot_ids`: only those lots,
  - if `is_conflict_inventory and not lot_ids`: only negative quantities,
    else only non-zero quantities,
  - if `product_ids`: only those products.
`locIds` is the list of candidate location ids resolved by the location
search (`child_of location_ids`, or all internal/transit locations of the
company). -/
def Inventory.quant_domain (inv : Inventory) (locIds : List Nat) (q : Quant) : Bool :=
  q.company_id == inv.company_id &&
  decide (q.location_id ∈ locIds) &&
  (if inv.prefill_counted_quantity = Prefill.zero then q.product.active else true) &&
  (if inv.lot_ids ≠ [] then
      (match q.lot_id with
       | some i => decide (i ∈ inv.lot_ids)
       | none => false)
    else true) &&
  (if inv.is_conflict_inventory && inv.lot_ids.isEmpty then
      decide (q.quantity < 0)
    else decide (q.quantity ≠ 0)) &&
  (if inv.product_ids ≠ [] then decide (q.product.id ∈ inv.product_ids) else true)

/-- Model of `Inventory._get_quantities`: filter the quant ledger by the
search domain, then group by the 5-tuple key, summing the quantity per
group (the `read_group` call).  The result is the grouped map as an
association list with one entry per distinct key. -/
def Inventory.get_quantities (inv : Inventory) (locIds : List Nat)
    (quants : List Quant) : List (QuantKey × ℚ) :=
  let filtered := quants.filter (inv.quant_domain locIds)
  (filtered.map Quant.key).dedup.map fun k =>
    (k, ((filtered.filter fun q => decide (q.key = k)).map Quant.quantity).sum)

/-- Model of `Inventory._get_exhausted_inventory_lines_vals`: one
zero-theoretical line per (product, location) pair in scope that is not in
`non_exhausted`.  `allProductIds` models the search for all active storable
products of the company; `whStockLocIds` models the warehouses' primary
stock locations; `now` is the creation timestamp (`inventory_date`
default).  Record ids are assigned by the store and irrelevant here, so
they are set to 0. -/
def Inventory.get_exhausted_inventory_lines_vals (inv : Inventory) (now : Nat)
    (getProduct : Nat → Product) (allProductIds whStockLocIds : List Nat)
    (non_exhausted : List (Nat × Nat)) : List InventoryLine :=
  let product_ids := if inv.product_ids ≠ [] then inv.product_ids else allProductIds
  let location_ids := if inv.location_ids ≠ [] then inv.location_ids else whStockLocIds
  product_ids.bind fun product_id =>
    location_ids.filterMap fun location_id =>
      if (product_id, location_id) ∈ non_exhausted then none
      else some
        { id := 0
          inventory_id := inv.id
          product := getProduct product_id
          location_id := location_id
          prod_lot_id := none
          package_id := none
          partner_id := none
          product_qty := 0          -- field default: not set in the values
          theoretical_qty := 0
          product_uom_id := (getProduct product_id).uom.id  -- create() default
          inventory_date := now }

/-- Model of `Inventory._get_inventory_lines_values`: one line per snapshot
entry with `theoretical_qty` the snapshot quantity and `product_qty` 0 when
prefill mode is `'zero'`, else the snapshot quantity; plus the exhausted
lines when `exhausted` is set.  The values are modelled directly as the
created records (`create()` fills `product_uom_id` from the product). -/
def Inventory.get_inventory_lines_values (inv : Inventory) (now : Nat)
    (locIds : List Nat) (quants : List Quant) (getProduct : Nat → Product)
    (allProductIds whStockLocIds : List Nat) : List InventoryLine :=
  let vals := (inv.get_quantities locIds quants).map fun kq =>
    { id := 0
      inventory_id := inv.id
      product_qty := if inv.prefill_counted_quantity = Prefill.zero then 0 else kq.2
      theoretical_qty := kq.2
      prod_lot_id := kq.1.lot_id
      partner_id := kq.1.owner_id
      product := getProduct kq.1.product_id
      location_id := kq.1.location_id
      package_id := kq.1.package_id
      product_uom_id := (getProduct kq.1.product_id).uom.id
      inventory_date := now : InventoryLine }
  if inv.exhausted then
    vals ++ inv.get_exhausted_inventory_lines_vals now getProduct allProductIds
      whStockLocIds ((inv.get_quantities locIds quants).map fun kq =>
        (kq.1.product_id, kq.1.location_id))
  else vals

/-- Model of `InventoryLine._get_virtual_location`: the product's virtual
inventory-adjustment location. -/
def InventoryLine.get_virtual_location (l : InventoryLine) : Nat :=
  l.product.property_stock_inventory

/-- Model of `InventoryLine._get_move_values`.  `getInv` resolves the
line's related `inventory_id` record. -/
def InventoryLine.get_move_values (getInv : Nat → Inventory) (l : InventoryLine)
    (qty : ℚ) (location_id location_dest_id : Nat) (out : Bool) : Move :=
  { name := "INV:" ++ (getInv l.inventory_id).name
    product_id := l.product.id
    product_uom := l.product_uom_id
    product_uom_qty := qty
    date := (getInv l.inventory_id).date
    company_id := (getInv l.inventory_id).company_id
    inventory_id := l.inventory_id
    state := MoveState.confirmed
    restrict_partner_id := l.partner_id
    location_id := location_id
    location_dest_id := location_dest_id
    move_line :=
      { product_id := l.product.id
        lot_id := l.prod_lot_id
        product_uom_qty := 0        -- bypass reservation
        product_uom_id := l.product_uom_id
        qty_done := qty
        package_id := if out then l.package_id else none
        result_package_id := if out then none else l.package_id
        location_id := location_id
        location_dest_id := location_dest_id
        owner_id := l.partner_id } }

/-- Model of `InventoryLine._generate_moves`: skip lines whose difference
is zero at the product-uom rounding; otherwise emit one move per line,
from the virtual adjustment location into the line's location when the
difference is positive, and from the line's location into the virtual
location (with `out = True`) when it is negative. -/
def InventoryLine.generate_moves (getInv : Nat → Inventory)
    (lines : List InventoryLine) : List Move :=
  lines.filterMap fun line =>
    let virtual_location := line.get_virtual_location
    let rounding := line.product.uom.rounding
    if float_is_zero line.difference_qty rounding then none
    else if 0 < line.difference_qty then
      some (line.get_move_values getInv line.difference_qty virtual_location
        line.location_id false)
    else
      some (line.get_move_values getInv |line.difference_qty| line.location_id
        virtual_location true)

/-- Model of `Inventory.action_check`: for an inventory not in `done` or
`cancel` state, drop the previously generated moves and regenerate them
from the current lines; otherwise do nothing. -/
def Inventory.action_check (getInv : Nat → Inventory) (inv : Inventory) : Inventory :=
  if inv.state = InvState.done ∨ inv.state = InvState.cancel then inv
  else { inv with move_ids := InventoryLine.generate_moves getInv inv.line_ids }

/-- Model of `Inventory.post_inventory`: every generated move that is not
yet done is posted to the ledger (its state becomes done). -/
def Inventory.post_inventory (inv : Inventory) : Inventory :=
  { inv with move_ids := inv.move_ids.map fun m =>
      if m.state = MoveState.done then m else { m with state := MoveState.done } }

/-- Model of `Inventory._action_done`: fail hard if any line has a negative
counted quantity that differs from its theoretical quantity; otherwise
regenerate the moves (`action_check`), stamp state/date and post the
moves.  The error case returns no updated inventory: the transaction
aborts with nothing committed. -/
def Inventory.action_done (now : Nat) (getInv : Nat → Inventory)
    (inv : Inventory) : Except StockError Inventory :=
  match inv.line_ids.find? (fun l =>
      decide (l.product_qty < 0) && decide (l.product_qty ≠ l.theoretical_qty)) with
  | some _ => Except.error StockError.negativeQty
  | none =>
    let inv1 := Inventory.action_check getInv inv
    Except.ok (Inventory.post_inventory
      { inv1 with state := InvState.done, date := now })

/-- Model of `Inventory._action_start`: inventories whose state is not
`draft` are skipped (`continue`); a draft inventory gets its lines
generated (unless lines exist or `start_empty` is set) and is moved to
`confirm` with the date stamped. -/
def Inventory.action_start (now : Nat) (locIds : List Nat) (quants : List Quant)
    (getProduct : Nat → Product) (allProductIds whStockLocIds : List Nat)
    (inv : Inventory) : Inventory :=
  if inv.state ≠ InvState.draft then inv
  else
    let lines :=
      if inv.line_ids = [] ∧ inv.start_empty = false then
        inv.get_inventory_lines_values now locIds quants getProduct allProductIds
          whStockLocIds
      else inv.line_ids
    { inv with state := InvState.confirm, date := now, line_ids := lines }

/-- The search domain of `InventoryLine._check_no_duplicate_line`: another
record (`id != line.id`) with the same product, location, owner, package,
lot and inventory. -/
def InventoryLine.duplicate_domain (line other : InventoryLine) : Bool :=
  other.id != line.id &&
  other.product.id == line.product.id &&
  other.location_id == line.location_id &&
  other.partner_id == line.partner_id &&
  other.package_id == line.package_id &&
  other.prod_lot_id == line.prod_lot_id &&
  other.inventory_id == line.inventory_id

/-- Model of `InventoryLine._check_no_duplicate_line`: for each line of the
checked recordset, search the whole line table (`db`) for a distinct record
with the same dimension key in the same inventory and fail if one exists. -/
def InventoryLine.check_no_duplicate_line (db : List InventoryLine)
    (lines : List InventoryLine) : Except StockError Unit :=
  if lines.any (fun line => db.any fun other => line.duplicate_domain other) then
    Except.error StockError.duplicateLine
  else Except.ok ()

/-- Model of `InventoryLine.create`: the new records are inserted and then
`_check_no_duplicate_line` runs on them against the whole table; on failure
the transaction aborts (nothing is committed), on success the new table is
returned.  (The `theoretical_qty` / `product_uom_id` defaulting performed
by `create` fills fields that are not part of the duplicate check and is
assumed already applied to `newLines`.) -/
def InventoryLine.create (db : List InventoryLine)
    (newLines : List InventoryLine) : Except StockError (List InventoryLine) :=
  let db2 := db ++ newLines
  match InventoryLine.check_no_duplicate_line db2 newLines with
  | Except.error e => Except.error e
  | Except.ok _ => Except.ok db2

/-- Model of `InventoryLine.write` restricted to the duplicate check: the
updated records (`lines`, already carrying their new field values inside
the new table `db`) are re-checked against the whole table. -/
def InventoryLine.write_check (db : List InventoryLine)
    (lines : List InventoryLine) : Except StockError Unit :=
  InventoryLine.check_no_duplicate_line db lines

/-- Pairwise distinctness of dimension keys within each inventory: no two
distinct records of the same inventory share the 5-tuple key. -/
def LinesHaveDistinctKeys (db : List InventoryLine) : Prop :=
  ∀ l1 ∈ db, ∀ l2 ∈ db, l1.id ≠ l2.id → l1.inventory_id = l2.inventory_id →
    l1.dimensionKey ≠ l2.dimensionKey

/-- Model of `InventoryLine._onchange_quantity_context`.  `theoretical_qty`
is the live ledger quantity returned by
`product.get_theoretical_quantity` for the line's new dimension key;
`lotProduct` resolves a lot id to its product id.  The onchange first sets
`product_uom_id` to the product's uom (so the uom-category guard on the
ledger lookup holds trivially), clears a lot that does not match the
product (or an untracked product), then forces `product_qty = 1` for a
serial-tracked product with a lot, else syncs `product_qty` to the new
theoretical quantity only when it still equals the stored theoretical
quantity at the uom rounding, and finally stores the new theoretical
quantity. -/
def InventoryLine.onchange_quantity_context (lotProduct : Nat → Nat)
    (theoretical_qty : ℚ) (line : InventoryLine) : InventoryLine :=
  let line1 := { line with product_uom_id := line.product.uom.id }
  let lot :=
    match line1.prod_lot_id with
    | none => none
    | some lotId =>
      if line1.product.tracking = Tracking.none ∨ line1.product.id ≠ lotProduct lotId
      then none else some lotId
  let line2 := { line1 with prod_lot_id := lot }
  if line2.prod_lot_id.isSome ∧ line2.product.tracking = Tracking.serial then
    { line2 with product_qty := 1, theoretical_qty := theoretical_qty }
  else if float_compare line2.product_qty line2.theoretical_qty
      line2.product.uom.rounding = 0 then
    { line2 with product_qty := theoretical_qty, theoretical_qty := theoretical_qty }
  else
    { line2 with theoretical_qty := theoretical_qty }

/-- Model of `InventoryLine.action_reset_product_qty`: lines whose parent
inventory is `done` are skipped, every other line gets `product_qty := 0`.
`stateOf` resolves the related `inventory_id.state`. -/
def InventoryLine.action_reset_product_qty (stateOf : Nat → InvState)
    (lines : List InventoryLine) : List InventoryLine :=
  lines.map fun l =>
    if stateOf l.inventory_id = InvState.done then l
    else { l with product_qty := 0 }

/-- The cyclic-count due set of `Inventory._run_inventory_tasks`: locations
whose `next_inventory_date` has arrived (search domain
`next_inventory_date <= today`, restricted to `companyScope` when the task
is triggered for one company). -/
def Inventory.cyclic_due_locations (today : Nat) (companyScope : Option Nat)
    (locs : List StockLocation) : List StockLocation :=
  locs.filter fun l =>
    (match l.next_inventory_date with
     | some d => d ≤ today
     | none => false) &&
    (match companyScope with
     | some c => l.company_id == c
     | none => true)

/-- The selection step of `Inventory._run_inventory_tasks`: among the due
locations, ignore any location that is a child of another due location
(`int(location_id) in locations.ids` over `parent_path.split('/')[:-2]`). -/
def Inventory.cyclic_selected_locations (today : Nat) (companyScope : Option Nat)
    (locs : List StockLocation) : List StockLocation :=
  let due := Inventory.cyclic_due_locations today companyScope locs
  due.filter fun l =>
    !(l.parent_path.any fun location_id =>
        decide (location_id ∈ due.map StockLocation.id))

/-! ### Concrete fixtures used by the witness theorems -/

/-- A unit of measure with rounding 1. -/
def wUom : Uom := ⟨1, 1, 1⟩

/-- An untracked storable product; its virtual adjustment location is 99. -/
def wProduct : Product := ⟨11, wUom, Tracking.none, true, 99⟩

/-- A serial-tracked product. -/
def wProductSerial : Product := ⟨21, ⟨2, 1, 1⟩, Tracking.serial, true, 99⟩

/-- A confirm-state inventory over location 3 with default prefill. -/
def wInv : Inventory :=
  ⟨5, "INV5", 0, InvState.confirm, 1, [3], [], [], false, Prefill.counted,
   false, false, [], []⟩

/-- Record lookup resolving every inventory id to `wInv`. -/
def wGetInv : Nat → Inventory := fun _ => wInv

/-- A line counted 7 against a theoretical 10 (stock removal case), in
package 7. -/
def wLineRemoval : InventoryLine := ⟨1, 5, wProduct, 3, none, some 7, none, 7, 10, 1, 0⟩

/-- A line counted 12 against a theoretical 10 (stock addition case). -/
def wLineAddition : InventoryLine := ⟨2, 5, wProduct, 3, none, some 7, none, 12, 10, 1, 0⟩

/-- A line with a negative counted quantity differing from its theoretical
quantity. -/
def wLineNegative : InventoryLine := ⟨3, 5, wProduct, 3, none, none, none, -2, 10, 1, 0⟩

/-- A serial-tracked line with serial number 4 attached and counted 0
against a stored theoretical quantity 3. -/
def wLineSerial : InventoryLine := ⟨4, 5, wProductSerial, 3, some 4, none, none, 0, 3, 2, 0⟩

/-- Lot lookup: every lot belongs to the serial-tracked product. -/
def wLotProduct : Nat → Nat := fun _ => 21

/-- The confirm-state inventory holding the negative line. -/
def wInvNeg : Inventory := { wInv with line_ids := [wLineNegative] }

/-- A second line with the same dimension key and inventory as
`wLineRemoval` but a different id. -/
def wLineDup : InventoryLine := { wLineRemoval with id := 10, product_qty := 3 }

/-- `wLineRemoval` after its counted quantity is reset to zero. -/
def wLineReset : InventoryLine := { wLineRemoval with product_qty := 0 }

/-- Product lookup resolving every product id to `wProduct`. -/
def wGetProduct : Nat → Product := fun _ => wProduct

/-- A quant of 10 units of `wProduct` at location 3. -/
def wQuantA : Quant := ⟨wProduct, 3, none, none, none, 1, 10⟩

/-- A due location with no ancestors. -/
def wLocParent : StockLocation := ⟨2, [], some 0, 1⟩

/-- A due location that is a child of `wLocParent`. -/
def wLocChild : StockLocation := ⟨1, [2], some 0, 1⟩

/-- A draft inventory (same data as `wInv` otherwise). -/
def wInvDraft : Inventory := { wInv with state := InvState.draft }

/-! ### Theorems -/

/-- `float_is_zero 0 r` holds for every positive rounding `r`. -/
theorem float_is_zero_zero {r : ℚ} (hr : 0 < r) : float_is_zero 0 r = true := by
  have h0 : roundHalfUp 0 = 0 := by
    norm_num [roundHalfUp]
  simp [float_is_zero, float_round, zero_div, h0, hr]

/-- Splitting a `filterMap` over a cons cell into the singleton contribution
followed by the rest. -/
theorem filterMap_singleton_append {α β : Type} (f : α → Option β) (a : α)
    (xs : List α) :
    List.filterMap f (a :: xs) = List.filterMap f [a] ++ List.filterMap f xs := by
  cases h : f a <;> simp [List.filterMap_cons, h]

/-- C1: for every inventory line, `_generate_moves` emits exactly one move
when the counted quantity differs from the theoretical quantity beyond the
uom rounding tolerance and no move otherwise: the per-line contributions
concatenate; a zero-difference line emits nothing; when counted >
theoretical, one move of (counted - theoretical) from the virtual
inventory-adjustment location into the line's location carrying the line's
package as destination (result) package; when counted < theoretical, one
move of the absolute difference from the line's location into the virtual
location carrying the line's package as source package. -/
theorem InventoryLine.generate_moves_per_line_spec (getInv : Nat → Inventory)
    (lines : List InventoryLine) (l : InventoryLine) :
    (InventoryLine.generate_moves getInv (l :: lines) =
      InventoryLine.generate_moves getInv [l] ++
        InventoryLine.generate_moves getInv lines) ∧
    (float_is_zero l.difference_qty l.product.uom.rounding = true →
      InventoryLine.generate_moves getInv [l] = []) ∧
    (float_is_zero l.difference_qty l.product.uom.rounding = false →
      l.theoretical_qty < l.product_qty →
      ∃ m, InventoryLine.generate_moves getInv [l] = [m] ∧
        m.product_uom_qty = l.product_qty - l.theoretical_qty ∧
        m.location_id = l.get_virtual_location ∧
        m.location_dest_id = l.location_id ∧
        m.move_line.qty_done = l.product_qty - l.theoretical_qty ∧
        m.move_line.package_id = none ∧
        m.move_line.result_package_id = l.package_id) ∧
    (float_is_zero l.difference_qty l.product.uom.rounding = false →
      l.product_qty < l.theoretical_qty →
      ∃ m, InventoryLine.generate_moves getInv [l] = [m] ∧
        m.product_uom_qty = l.theoretical_qty - l.product_qty ∧
        m.location_id = l.location_id ∧
        m.location_dest_id = l.get_virtual_location ∧
        m.move_line.qty_done = l.theoretical_qty - l.product_qty ∧
        m.move_line.package_id = l.package_id ∧
        m.move_line.result_package_id = none) := by
  refine ⟨?_, ?_, ?_, ?_⟩
  · simp only [InventoryLine.generate_moves]
    exact filterMap_singleton_append _ l lines
  · intro h
    simp [InventoryLine.generate_moves, h]
  · intro h hlt
    have hd : 0 < l.difference_qty := by
      simp only [InventoryLine.difference_qty, sub_pos]
      exact hlt
    refine ⟨l.get_move_values getInv l.difference_qty l.get_virtual_location
      l.location_id false, ?_, rfl, rfl, rfl, rfl, rfl, rfl⟩
    simp [InventoryLine.generate_moves, h, hd]
  · intro h hlt
    have hneg : l.difference_qty < 0 := by
      simp only [InventoryLine.difference_qty, sub_neg]
      exact hlt
    have hd : ¬ 0 < l.difference_qty := not_lt_of_gt hneg
    have habs : |l.difference_qty| = l.theoretical_qty - l.product_qty := by
      rw [abs_of_neg hneg, InventoryLine.difference_qty, neg_sub]
    refine ⟨l.get_move_values getInv |l.difference_qty| l.location_id
      l.get_virtual_location true, ?_, habs, rfl, rfl, habs, rfl, rfl⟩
    simp [InventoryLine.generate_moves, h, hd]

/-- Witness for C1: the removal line (counted 7, theoretical 10) satisfies
the hypotheses and yields a single move of 3 out of the line's location. -/
theorem InventoryLine.generate_moves_per_line_spec_witness :
    float_is_zero wLineRemoval.difference_qty wLineRemoval.product.uom.rounding = false ∧
    wLineRemoval.product_qty < wLineRemoval.theoretical_qty ∧
    ∃ m, InventoryLine.generate_moves wGetInv [wLineRemoval] = [m] ∧
      m.product_uom_qty = wLineRemoval.theoretical_qty - wLineRemoval.product_qty ∧
      m.location_id = wLineRemoval.location_id ∧
      m.location_dest_id = wLineRemoval.get_virtual_location ∧
      m.move_line.qty_done = wLineRemoval.theoretical_qty - wLineRemoval.product_qty ∧
      m.move_line.package_id = wLineRemoval.package_id ∧
      m.move_line.result_package_id = none := by
  have h1 : float_is_zero wLineRemoval.difference_qty
      wLineRemoval.product.uom.rounding = false := by
    norm_num [float_is_zero, float_round, roundHalfUp, InventoryLine.difference_qty,
      wLineRemoval, wProduct, wUom]
  have h2 : wLineRemoval.product_qty < wLineRemoval.theoretical_qty := by
    norm_num [wLineRemoval]
  exact ⟨h1, h2,
    (InventoryLine.generate_moves_per_line_spec wGetInv [] wLineRemoval).2.2.2 h1 h2⟩

/-- C2: validating an inventory holding a line whose counted quantity is
negative and different from its theoretical quantity fails hard with the
negative-quantity error; the error is raised before any write, so no
updated inventory is produced (state, lines and moves unchanged). -/
theorem Inventory.action_done_negative_qty_fails (now : Nat)
    (getInv : Nat → Inventory) (inv : Inventory)
    (h : ∃ l ∈ inv.line_ids, l.product_qty < 0 ∧ l.product_qty ≠ l.theoretical_qty) :
    Inventory.action_done now getInv inv = Except.error StockError.negativeQty := by
  obtain ⟨l, hl, h1, h2⟩ := h
  cases hf : inv.line_ids.find? (fun l =>
      decide (l.product_qty < 0) && decide (l.product_qty ≠ l.theoretical_qty)) with
  | some x =>
    simp only [Inventory.action_done]
    rw [hf]
  | none =>
    rw [List.find?_eq_none] at hf
    have := hf l hl
    simp [h1, h2] at this

/-- Witness for C2: the concrete inventory with a line counted -2 against a
theoretical 10 makes the done-transition fail. -/
theorem Inventory.action_done_negative_qty_fails_witness :
    Inventory.action_done 9 wGetInv wInvNeg = Except.error StockError.negativeQty := by
  refine Inventory.action_done_negative_qty_fails 9 wGetInv wInvNeg
    ⟨wLineNegative, ?_, ?_, ?_⟩
  · simp [wInvNeg]
  · norm_num [wLineNegative]
  · norm_num [wLineNegative]

/-- C7: the check/regenerate operation is idempotent: for any inventory it
replaces the previously generated move set with the one recomputed from
the current lines, so running it twice equals running it once; it does
nothing for done or cancel inventories, and for a confirm-state inventory
the resulting move set is exactly the one generated from the current
lines. -/
theorem Inventory.action_check_idempotent (getInv : Nat → Inventory)
    (inv : Inventory) :
    Inventory.action_check getInv (Inventory.action_check getInv inv) =
      Inventory.action_check getInv inv ∧
    (inv.state = InvState.done ∨ inv.state = InvState.cancel →
      Inventory.action_check getInv inv = inv) ∧
    (inv.state = InvState.confirm →
      (Inventory.action_check getInv inv).move_ids =
        InventoryLine.generate_moves getInv inv.line_ids) := by
  refine ⟨?_, ?_, ?_⟩
  · by_cases h : inv.state = InvState.done ∨ inv.state = InvState.cancel
    · simp [Inventory.action_check, h]
    · simp [Inventory.action_check, h]
  · intro h
    simp [Inventory.action_check, h]
  · intro h
    have hnd : ¬(inv.state = InvState.done ∨ inv.state = InvState.cancel) := by
      simp [h]
    simp [Inventory.action_check, hnd]

/-- Witness for C7: the check operation on the concrete confirm-state
inventory, applied twice, equals one application, and its move set is the
one generated from its lines. -/
theorem Inventory.action_check_idempotent_witness :
    Inventory.action_check wGetInv (Inventory.action_check wGetInv wInvNeg) =
      Inventory.action_check wGetInv wInvNeg ∧
    (Inventory.action_check wGetInv wInvNeg).move_ids =
      InventoryLine.generate_moves wGetInv wInvNeg.line_ids := by
  refine ⟨(Inventory.action_check_idempotent wGetInv wInvNeg).1, ?_⟩
  exact (Inventory.action_check_idempotent wGetInv wInvNeg).2.2 (by decide)

/-- C9: the start transition is a silent no-op on every inventory whose
state is not draft (the record is returned unchanged, no error); a draft
inventory is transitioned to confirm with its date stamped. -/
theorem Inventory.action_start_non_draft_noop (now : Nat) (locIds : List Nat)
    (quants : List Quant) (getProduct : Nat → Product)
    (allProductIds whStockLocIds : List Nat) (inv : Inventory) :
    (inv.state ≠ InvState.draft →
      Inventory.action_start now locIds quants getProduct allProductIds
        whStockLocIds inv = inv) ∧
    (inv.state = InvState.draft →
      (Inventory.action_start now locIds quants getProduct allProductIds
        whStockLocIds inv).state = InvState.confirm ∧
      (Inventory.action_start now locIds quants getProduct allProductIds
        whStockLocIds inv).date = now) := by
  constructor
  · intro h
    simp [Inventory.action_start, h]
  · intro h
    simp [Inventory.action_start, h]

/-- Witness for C9: the done-state variant of the concrete inventory is
returned unchanged by the start transition. -/
theorem Inventory.action_start_non_draft_noop_witness :
    Inventory.action_start 9 [3] [wQuantA] wGetProduct [] [] wInvNeg = wInvNeg := by
  exact (Inventory.action_start_non_draft_noop 9 [3] [wQuantA] wGetProduct [] []
    wInvNeg).1 (by decide)

/-- C10: resetting counted quantities leaves every line of a done inventory
completely unchanged, and sets the counted quantity of every other line to
exactly 0 while preserving all its other fields. -/
theorem InventoryLine.action_reset_product_qty_spec (stateOf : Nat → InvState)
    (lines : List InventoryLine) :
    (InventoryLine.action_reset_product_qty stateOf lines).length = lines.length ∧
    ∀ (i : Nat) (l r : InventoryLine), lines[i]? = some l →
      (InventoryLine.action_reset_product_qty stateOf lines)[i]? = some r →
      (stateOf l.inventory_id = InvState.done → r = l) ∧
      (stateOf l.inventory_id ≠ InvState.done →
        r.product_qty = 0 ∧ r.id = l.id ∧ r.inventory_id = l.inventory_id ∧
        r.product = l.product ∧ r.location_id = l.location_id ∧
        r.prod_lot_id = l.prod_lot_id ∧ r.package_id = l.package_id ∧
        r.partner_id = l.partner_id ∧ r.theoretical_qty = l.theoretical_qty ∧
        r.product_uom_id = l.product_uom_id ∧ r.inventory_date = l.inventory_date) := by
  constructor
  · simp [InventoryLine.action_reset_product_qty]
  · intro i l r hl hr
    rw [InventoryLine.action_reset_product_qty, List.getElem?_map, hl] at hr
    simp only [Option.map_some', Option.some.injEq] at hr
    subst hr
    constructor
    · intro hs
      simp [hs]
    · intro hs
      simp [hs]

/-- Witness for C10: resetting the concrete confirm-state line yields a
line with counted quantity 0 and every other field preserved. -/
theorem InventoryLine.action_reset_product_qty_spec_witness :
    wLineReset.product_qty = 0 ∧ wLineReset.id = wLineRemoval.id ∧
    wLineReset.inventory_id = wLineRemoval.inventory_id ∧
    wLineReset.product = wLineRemoval.product ∧
    wLineReset.location_id = wLineRemoval.location_id ∧
    wLineReset.prod_lot_id = wLineRemoval.prod_lot_id ∧
    wLineReset.package_id = wLineRemoval.package_id ∧
    wLineReset.partner_id = wLineRemoval.partner_id ∧
    wLineReset.theoretical_qty = wLineRemoval.theoretical_qty ∧
    wLineReset.product_uom_id = wLineRemoval.product_uom_id ∧
    wLineReset.inventory_date = wLineRemoval.inventory_date := by
  exact ((InventoryLine.action_reset_product_qty_spec (fun _ => InvState.confirm)
    [wLineRemoval]).2 0 wLineRemoval wLineReset rfl rfl).2 (by decide)

/-- C8: in a cyclic-count scheduler run, a due location with an ancestor
among the selected locations is skipped, and consequently no two selected
locations stand in an ancestor-descendant relationship. -/
theorem Inventory.cyclic_ancestor_wins (today : Nat) (companyScope : Option Nat)
    (locs : List StockLocation) :
    (∀ l ∈ Inventory.cyclic_due_locations today companyScope locs,
      (∃ a ∈ Inventory.cyclic_selected_locations today companyScope locs,
        a.id ∈ l.parent_path) →
      l ∉ Inventory.cyclic_selected_locations today companyScope locs) ∧
    (∀ a ∈ Inventory.cyclic_selected_locations today companyScope locs,
      ∀ b ∈ Inventory.cyclic_selected_locations today companyScope locs,
      a.id ∉ b.parent_path) := by
  have key : ∀ a ∈ Inventory.cyclic_selected_locations today companyScope locs,
      ∀ b ∈ Inventory.cyclic_selected_locations today companyScope locs,
      a.id ∉ b.parent_path := by
    intro a ha b hb hab
    have hadue : a ∈ Inventory.cyclic_due_locations today companyScope locs := by
      simpa [Inventory.cyclic_selected_locations] using
        List.mem_of_mem_filter ha
    have hp := List.of_mem_filter hb
    simp only [Bool.not_eq_true', List.any_eq_false, decide_eq_true_eq] at hp
    exact hp a.id hab (List.mem_map_of_mem StockLocation.id hadue)
  refine ⟨?_, key⟩
  rintro l _ ⟨a, ha, haid⟩ hlsel
  exact key a ha l hlsel haid

/-- Witness for C8: with the child and parent locations both due, the child
is skipped because its parent is selected. -/
theorem Inventory.cyclic_ancestor_wins_witness :
    wLocChild ∈ Inventory.cyclic_due_locations 0 Option.none [wLocChild, wLocParent] ∧
    wLocChild ∉ Inventory.cyclic_selected_locations 0 Option.none
      [wLocChild, wLocParent] := by
  refine ⟨by decide, ?_⟩
  exact (Inventory.cyclic_ancestor_wins 0 Option.none [wLocChild, wLocParent]).1
    wLocChild (by decide) ⟨wLocParent, by decide, by decide⟩

/-- A checked line sharing its dimension key and inventory with a distinct
record of the table makes the duplicate check fail. -/
theorem check_no_duplicate_line_error_of_dup (db lines : List InventoryLine)
    (l other : InventoryLine) (hl : l ∈ lines) (hother : other ∈ db)
    (hid : other.id ≠ l.id) (hinv : other.inventory_id = l.inventory_id)
    (hkey : other.dimensionKey = l.dimensionKey) :
    InventoryLine.check_no_duplicate_line db lines =
      Except.error StockError.duplicateLine := by
  simp only [InventoryLine.dimensionKey, QuantKey.mk.injEq] at hkey
  obtain ⟨k1, k2, k3, k4, k5⟩ := hkey
  have hdup : l.duplicate_domain other = true := by
    simp [InventoryLine.duplicate_domain, bne_iff_ne, hid, hinv, k1, k2, k3, k4, k5]
  have hany : (lines.any fun line => db.any fun o => line.duplicate_domain o) = true :=
    List.any_eq_true.mpr ⟨l, hl, List.any_eq_true.mpr ⟨other, hother, hdup⟩⟩
  simp only [InventoryLine.check_no_duplicate_line]
  rw [hany]
  rfl

/-- A successful duplicate check means no record of the table duplicates a
checked line's dimension key within its inventory. -/
theorem check_no_duplicate_line_ok_no_dup (db lines : List InventoryLine)
    (hok : InventoryLine.check_no_duplicate_line db lines = Except.ok ()) :
    ∀ l1, l1 ∈ db → ∀ l2, l2 ∈ lines → l1.id ≠ l2.id →
      l1.inventory_id = l2.inventory_id → l1.dimensionKey ≠ l2.dimensionKey := by
  by_cases hany : (lines.any fun line => db.any fun o => line.duplicate_domain o) = true
  · have herr : InventoryLine.check_no_duplicate_line db lines =
        Except.error StockError.duplicateLine := by
      simp only [InventoryLine.check_no_duplicate_line]
      rw [hany]
      rfl
    rw [herr] at hok
    exact Except.noConfusion hok
  · rw [Bool.not_eq_true] at hany
    intro l1 h1 l2 h2 hid hinv hkey
    have h1x := (List.any_eq_false.mp hany) l2 h2
    rw [Bool.not_eq_true, List.any_eq_false] at h1x
    have hf := h1x l1 h1
    apply hf
    simp only [InventoryLine.dimensionKey, QuantKey.mk.injEq] at hkey
    obtain ⟨k1, k2, k3, k4, k5⟩ := hkey
    simp [InventoryLine.duplicate_domain, bne_iff_ne, hid, hinv, k1, k2, k3, k4, k5]

/-- C3: creating or updating inventory lines fails with the duplicate-line
error as soon as some other record of the same inventory (nulls compared
as equal-to-null) shares the 5-tuple dimension key with one of the
created/updated lines; consequently a successful create preserves pairwise
distinctness of the dimension keys within each inventory, and a successful
update keeps the whole table pairwise distinct whenever the records it did
not touch were pairwise distinct. -/
theorem InventoryLine.create_duplicate_line_spec :
    (∀ (db newLines : List InventoryLine) (l other : InventoryLine),
      l ∈ newLines → other ∈ db ++ newLines → other.id ≠ l.id →
      other.inventory_id = l.inventory_id →
      other.dimensionKey = l.dimensionKey →
      InventoryLine.create db newLines =
        Except.error StockError.duplicateLine) ∧
    (∀ (db newLines db2 : List InventoryLine),
      LinesHaveDistinctKeys db →
      InventoryLine.create db newLines = Except.ok db2 →
      db2 = db ++ newLines ∧ LinesHaveDistinctKeys db2) ∧
    (∀ (db lines : List InventoryLine) (l other : InventoryLine),
      l ∈ lines → other ∈ db → other.id ≠ l.id →
      other.inventory_id = l.inventory_id →
      other.dimensionKey = l.dimensionKey →
      InventoryLine.write_check db lines =
        Except.error StockError.duplicateLine) ∧
    (∀ (db lines : List InventoryLine),
      (∀ l1 ∈ db, l1 ∉ lines → ∀ l2 ∈ db, l2 ∉ lines → l1.id ≠ l2.id →
        l1.inventory_id = l2.inventory_id → l1.dimensionKey ≠ l2.dimensionKey) →
      InventoryLine.write_check db lines = Except.ok () →
      LinesHaveDistinctKeys db) := by
  refine ⟨?_, ?_, ?_, ?_⟩
  · intro db newLines l other hl hother hid hinv hkey
    have herr := check_no_duplicate_line_error_of_dup (db ++ newLines) newLines
      l other hl hother hid hinv hkey
    simp only [InventoryLine.create]
    rw [herr]
  · intro db newLines db2 hdb hok
    cases hcheck : InventoryLine.check_no_duplicate_line (db ++ newLines) newLines with
    | error e =>
      simp only [InventoryLine.create] at hok
      rw [hcheck] at hok
      exact Except.noConfusion hok
    | ok u =>
      simp only [InventoryLine.create] at hok
      rw [hcheck] at hok
      simp only [Except.ok.injEq] at hok
      subst hok
      refine ⟨rfl, ?_⟩
      obtain rfl : u = () := rfl
      have hnd := check_no_duplicate_line_ok_no_dup (db ++ newLines) newLines hcheck
      intro l1 h1 l2 h2 hid hinv hkey
      rcases List.mem_append.mp h1 with h1d | h1n
      · rcases List.mem_append.mp h2 with h2d | h2n
        · exact hdb l1 h1d l2 h2d hid hinv hkey
        · exact hnd l1 h1 l2 h2n hid hinv hkey
      · exact hnd l2 h2 l1 h1n (fun he => hid he.symm) hinv.symm hkey.symm
  · intro db lines l other hl hother hid hinv hkey
    exact check_no_duplicate_line_error_of_dup db lines l other hl hother hid
      hinv hkey
  · intro db lines hold hok
    have hnd := check_no_duplicate_line_ok_no_dup db lines hok
    intro l1 h1 l2 h2 hid hinv
    by_cases hm1 : l1 ∈ lines
    · intro hkey
      exact hnd l2 h2 l1 hm1 (fun he => hid he.symm) hinv.symm hkey.symm
    · by_cases hm2 : l2 ∈ lines
      · exact hnd l1 h1 l2 hm2 hid hinv
      · exact hold l1 h1 hm1 l2 h2 hm2 hid hinv

/-- Witness for C3: creating a line that duplicates the dimension key of an
existing line of the same inventory fails with the duplicate-line error,
and re-checking the updated line against the table on write fails too. -/
theorem InventoryLine.create_duplicate_line_spec_witness :
    InventoryLine.create [wLineRemoval] [wLineDup] =
      Except.error StockError.duplicateLine ∧
    InventoryLine.write_check [wLineRemoval, wLineDup] [wLineDup] =
      Except.error StockError.duplicateLine := by
  constructor
  · refine InventoryLine.create_duplicate_line_spec.1 [wLineRemoval] [wLineDup]
      wLineDup wLineRemoval ?_ ?_ ?_ ?_ ?_
    · simp
    · simp
    · decide
    · rfl
    · rfl
  · refine InventoryLine.create_duplicate_line_spec.2.2.1 [wLineRemoval, wLineDup]
      [wLineDup] wLineDup wLineRemoval ?_ ?_ ?_ ?_ ?_
    · simp
    · simp
    · decide
    · rfl
    · rfl

/-- C6 counterexample: the claim states the onchange forces counted = 1
only when a serial number is attached AND the counted quantity is
non-zero, and that otherwise counted is only auto-synced when it equals
the previous theoretical value.  On the concrete serial-tracked line with
a serial attached, counted 0 and stored theoretical 3 (so per the claim
the counted quantity should stay 0), the code still forces counted to 1:
the force-to-1 branch does not test the counted quantity at all. -/
theorem InventoryLine.onchange_serial_zero_counted_counterexample :
    wLineSerial.product.tracking = Tracking.serial ∧
    wLineSerial.prod_lot_id = some 4 ∧
    wLineSerial.product_qty = 0 ∧
    float_compare wLineSerial.product_qty wLineSerial.theoretical_qty
      wLineSerial.product.uom.rounding ≠ 0 ∧
    (InventoryLine.onchange_quantity_context wLotProduct 5 wLineSerial).product_qty = 1 ∧
    ¬(InventoryLine.onchange_quantity_context wLotProduct 5
        wLineSerial).product_qty = wLineSerial.product_qty := by
  refine ⟨rfl, rfl, rfl, ?_, ?_, ?_⟩
  · norm_num [float_compare, float_is_zero, float_round, roundHalfUp,
      wLineSerial, wProductSerial]
  · rfl
  · have h1 : (InventoryLine.onchange_quantity_context wLotProduct 5
        wLineSerial).product_qty = 1 := rfl
    have h2 : wLineSerial.product_qty = 0 := rfl
    rw [h1, h2]
    norm_num

/-- C6 (amended): for a serial-tracked product line, the onchange forces
counted = 1 whenever a serial number matching the product is attached,
regardless of the counted value; when no (matching) serial is attached,
counted is auto-synced to the new theoretical quantity exactly when it
still equals the stored theoretical quantity at the uom rounding; the new
theoretical quantity is always stored. -/
theorem InventoryLine.onchange_quantity_context_spec (lotProduct : Nat → Nat)
    (theo_new : ℚ) (l : InventoryLine)
    (hser : l.product.tracking = Tracking.serial) :
    ((∃ lotId, l.prod_lot_id = some lotId ∧ lotProduct lotId = l.product.id) →
      (InventoryLine.onchange_quantity_context lotProduct theo_new l).product_qty = 1) ∧
    ((∀ lotId, l.prod_lot_id = some lotId → lotProduct lotId ≠ l.product.id) →
      (InventoryLine.onchange_quantity_context lotProduct theo_new l).product_qty =
        (if float_compare l.product_qty l.theoretical_qty l.product.uom.rounding = 0
         then theo_new else l.product_qty)) ∧
    (InventoryLine.onchange_quantity_context lotProduct theo_new l).theoretical_qty =
      theo_new := by
  refine ⟨?_, ?_, ?_⟩
  · rintro ⟨lotId, hlot, hmatch⟩
    simp [InventoryLine.onchange_quantity_context, hlot, hser, hmatch]
  · intro hno
    cases hlot : l.prod_lot_id with
    | none =>
      simp only [InventoryLine.onchange_quantity_context, hlot]
      by_cases hfc : float_compare l.product_qty l.theoretical_qty
          l.product.uom.rounding = 0
      · simp [hfc]
      · simp [hfc]
    | some lotId =>
      have hne : lotProduct lotId ≠ l.product.id := hno lotId hlot
      simp only [InventoryLine.onchange_quantity_context, hlot, hser]
      rw [if_pos (Or.inr (Ne.symm hne))]
      by_cases hfc : float_compare l.product_qty l.theoretical_qty
          l.product.uom.rounding = 0
      · simp [hfc]
      · simp [hfc]
  · simp only [InventoryLine.onchange_quantity_context]
    split
    · rfl
    · split
      · rfl
      · rfl

/-- Witness for C6 (amended): on the concrete serial line (hypotheses
discharged concretely) the onchange forces counted to 1 and stores the new
theoretical quantity 5. -/
theorem InventoryLine.onchange_quantity_context_spec_witness :
    wLineSerial.product.tracking = Tracking.serial ∧
    (InventoryLine.onchange_quantity_context wLotProduct 5 wLineSerial).product_qty = 1 ∧
    (InventoryLine.onchange_quantity_context wLotProduct 5
      wLineSerial).theoretical_qty = 5 := by
  refine ⟨rfl, ?_, ?_⟩
  · exact (InventoryLine.onchange_quantity_context_spec wLotProduct 5 wLineSerial
      rfl).1 ⟨4, rfl, rfl⟩
  · exact (InventoryLine.onchange_quantity_context_spec wLotProduct 5 wLineSerial
      rfl).2.2

/-- Every line generated by `_get_inventory_lines_values` under the default
(`'counted'`) prefill mode has its counted quantity equal to its
theoretical quantity, and its product comes from the product lookup. -/
theorem Inventory.lines_values_counted_eq (inv : Inventory) (now : Nat)
    (locIds : List Nat) (quants : List Quant) (getProduct : Nat → Product)
    (allProductIds whStockLocIds : List Nat)
    (hpref : inv.prefill_counted_quantity = Prefill.counted) :
    ∀ l ∈ inv.get_inventory_lines_values now locIds quants getProduct
        allProductIds whStockLocIds,
      l.product_qty = l.theoretical_qty ∧ ∃ pid, l.product = getProduct pid := by
  intro l hl
  have hzero : ¬ inv.prefill_counted_quantity = Prefill.zero := by
    rw [hpref]
    intro hcontr
    cases hcontr
  simp only [Inventory.get_inventory_lines_values, if_neg hzero] at hl
  have hmap : ∀ y, y ∈ (inv.get_quantities locIds quants).map (fun kq =>
      ({ id := 0
         inventory_id := inv.id
         product_qty := kq.2
         theoretical_qty := kq.2
         prod_lot_id := kq.1.lot_id
         partner_id := kq.1.owner_id
         product := getProduct kq.1.product_id
         location_id := kq.1.location_id
         package_id := kq.1.package_id
         product_uom_id := (getProduct kq.1.product_id).uom.id
         inventory_date := now : InventoryLine })) →
      y.product_qty = y.theoretical_qty ∧ ∃ pid, y.product = getProduct pid := by
    intro y hy
    obtain ⟨kq, _, hyeq⟩ := List.mem_map.mp hy
    subst hyeq
    exact ⟨rfl, kq.1.product_id, rfl⟩
  have hexh : ∀ y, y ∈ inv.get_exhausted_inventory_lines_vals now getProduct
      allProductIds whStockLocIds ((inv.get_quantities locIds quants).map fun kq =>
        (kq.1.product_id, kq.1.location_id)) →
      y.product_qty = y.theoretical_qty ∧ ∃ pid, y.product = getProduct pid := by
    intro y hy
    simp only [Inventory.get_exhausted_inventory_lines_vals] at hy
    obtain ⟨pid, _, hy2⟩ := List.mem_bind.mp hy
    obtain ⟨loc, _, hy3⟩ := List.mem_filterMap.mp hy2
    split at hy3
    · cases hy3
    · obtain rfl := Option.some.inj hy3
      exact ⟨rfl, pid, rfl⟩
  split at hl
  · rcases List.mem_append.mp hl with hmem | hmem
    · exact hmap l hmem
    · exact hexh l hmem
  · exact hmap l hl

/-- C4: generating the lines of an inventory from the quantity snapshot
with the default prefill mode (counted = theoretical) and immediately
computing the moves yields an empty move set. -/
theorem Inventory.round_trip_no_moves (inv : Inventory) (now : Nat)
    (locIds : List Nat) (quants : List Quant) (getProduct : Nat → Product)
    (allProductIds whStockLocIds : List Nat) (getInv : Nat → Inventory)
    (hpref : inv.prefill_counted_quantity = Prefill.counted)
    (hr : ∀ pid, 0 < (getProduct pid).uom.rounding) :
    InventoryLine.generate_moves getInv
      (inv.get_inventory_lines_values now locIds quants getProduct allProductIds
        whStockLocIds) = [] := by
  rw [InventoryLine.generate_moves, List.filterMap_eq_nil]
  intro l hl
  obtain ⟨heq, pid, hprod⟩ := Inventory.lines_values_counted_eq inv now locIds
    quants getProduct allProductIds whStockLocIds hpref l hl
  have hdz : l.difference_qty = 0 := by
    rw [InventoryLine.difference_qty, heq, sub_self]
  have hz : float_is_zero l.difference_qty l.product.uom.rounding = true := by
    rw [hdz, hprod]
    exact float_is_zero_zero (hr pid)
  simp [hz]

/-- Witness for C4: the concrete draft inventory with default prefill over
the single quant of 10 units produces lines that generate no moves. -/
theorem Inventory.round_trip_no_moves_witness :
    wInvDraft.prefill_counted_quantity = Prefill.counted ∧
    InventoryLine.generate_moves wGetInv
      (wInvDraft.get_inventory_lines_values 0 [3] [wQuantA] wGetProduct [] []) = [] := by
  refine ⟨rfl, Inventory.round_trip_no_moves wInvDraft 0 [3] [wQuantA] wGetProduct
    [] [] wGetInv rfl ?_⟩
  intro pid
  norm_num [wGetProduct, wProduct, wUom]

/-- In a list whose images under `f` are pairwise distinct, filtering by
`f`-value of a member isolates exactly that member. -/
theorem filter_key_singleton {α β : Type} [DecidableEq β] (f : α → β) :
    ∀ (l : List α) (a : α), (l.map f).Nodup → a ∈ l →
      l.filter (fun x => decide (f x = f a)) = [a] := by
  intro l
  induction l with
  | nil =>
    intro a _ ha
    cases ha
  | cons b t ih =>
    intro a hnd ha
    rw [List.map_cons, List.nodup_cons] at hnd
    obtain ⟨hb, hnd2⟩ := hnd
    rcases List.mem_cons.mp ha with rfl | hat
    · have ht : t.filter (fun x => decide (f x = f a)) = [] := by
        rw [List.filter_eq_nil]
        intro x hx
        simp only [decide_eq_true_eq]
        intro hfeq
        exact hb (hfeq ▸ List.mem_map_of_mem f hx)
      simp [List.filter_cons, ht]
    · have hne : f b ≠ f a := by
        intro hfeq
        exact hb (hfeq ▸ List.mem_map_of_mem f hat)
      simp only [List.filter_cons, hne, decide_False, if_false, cond_false]
      exact ih a hnd2 hat

/-- C5: with pairwise-distinct quant keys (the ledger invariant), every
entry of the quantity snapshot comes from a quant passing the search
domain: the quantity is negative when the inventory is a conflict
inventory without lot filter and non-zero otherwise; a lot filter
restricts the entry to those lots, a product filter to those products, and
prefill mode zero to active products. -/
theorem Inventory.get_quantities_filter_spec (inv : Inventory) (locIds : List Nat)
    (quants : List Quant) (hnodup : (quants.map Quant.key).Nodup)
    (k : QuantKey) (v : ℚ)
    (hkv : (k, v) ∈ inv.get_quantities locIds quants) :
    ∃ q ∈ quants, Quant.key q = k ∧ v = q.quantity ∧
      (if inv.is_conflict_inventory && inv.lot_ids.isEmpty then v < 0 else v ≠ 0) ∧
      (inv.lot_ids ≠ [] → ∃ i ∈ inv.lot_ids, q.lot_id = some i) ∧
      (inv.product_ids ≠ [] → q.product.id ∈ inv.product_ids) ∧
      (inv.prefill_counted_quantity = Prefill.zero → q.product.active = true) := by
  simp only [Inventory.get_quantities] at hkv
  obtain ⟨k0, hk0, heq⟩ := List.mem_map.mp hkv
  injection heq with h1 h2
  subst h1
  have hkmem := List.mem_dedup.mp hk0
  obtain ⟨q, hqf, hqk⟩ := List.mem_map.mp hkmem
  have hfn : ((quants.filter (inv.quant_domain locIds)).map Quant.key).Nodup :=
    List.Nodup.sublist (List.Sublist.map Quant.key (List.filter_sublist quants)) hnodup
  have hfilter : (quants.filter (inv.quant_domain locIds)).filter
      (fun x => decide (x.key = k0)) = [q] := by
    rw [← hqk]
    exact filter_key_singleton Quant.key (quants.filter (inv.quant_domain locIds))
      q hfn hqf
  rw [hfilter] at h2
  simp only [List.map_cons, List.map_nil, List.sum_cons, List.sum_nil, add_zero] at h2
  have hdom := List.of_mem_filter hqf
  rw [Inventory.quant_domain] at hdom
  rw [Bool.and_eq_true, Bool.and_eq_true, Bool.and_eq_true, Bool.and_eq_true,
    Bool.and_eq_true] at hdom
  obtain ⟨⟨⟨⟨⟨hcomp, hloc⟩, hact⟩, hlot⟩, hqty⟩, hprodf⟩ := hdom
  subst h2
  refine ⟨q, List.mem_of_mem_filter hqf, hqk, rfl, ?_, ?_, ?_, ?_⟩
  · by_cases hc : (inv.is_conflict_inventory && inv.lot_ids.isEmpty) = true
    · rw [if_pos hc] at hqty
      rw [if_pos hc]
      exact of_decide_eq_true hqty
    · rw [if_neg hc] at hqty
      rw [if_neg hc]
      exact of_decide_eq_true hqty
  · intro hl
    rw [if_pos hl] at hlot
    cases hql : q.lot_id with
    | none =>
      rw [hql] at hlot
      simp at hlot
    | some i =>
      rw [hql] at hlot
      simp only [decide_eq_true_eq] at hlot
      exact ⟨i, hlot, rfl⟩
  · intro hp
    rw [if_pos hp] at hprodf
    exact of_decide_eq_true hprodf
  · intro hz
    rw [if_pos hz] at hact
    exact hact

/-- Witness for C5: on the concrete ledger with one quant of 10 units, the
snapshot has the entry (key, 10) and the theorem instantiates to it. -/
theorem Inventory.get_quantities_filter_spec_witness :
    ([wQuantA].map Quant.key).Nodup ∧
    (wQuantA.key, (10:ℚ)) ∈ wInv.get_quantities [3] [wQuantA] ∧
    (∃ q ∈ [wQuantA], Quant.key q = wQuantA.key ∧ (10:ℚ) = q.quantity ∧
      (if wInv.is_conflict_inventory && wInv.lot_ids.isEmpty then (10:ℚ) < 0
        else (10:ℚ) ≠ 0) ∧
      (wInv.lot_ids ≠ [] → ∃ i ∈ wInv.lot_ids, q.lot_id = some i) ∧
      (wInv.product_ids ≠ [] → q.product.id ∈ wInv.product_ids) ∧
      (wInv.prefill_counted_quantity = Prefill.zero → q.product.active = true)) := by
  have hnodup : ([wQuantA].map Quant.key).Nodup := by decide
  have hdom : wInv.quant_domain [3] wQuantA = true := by decide
  have hfiltered : [wQuantA].filter (wInv.quant_domain [3]) = [wQuantA] := by
    simp [List.filter_cons, hdom]
  have hgq : wInv.get_quantities [3] [wQuantA] = [(wQuantA.key, (10:ℚ))] := by
    simp only [Inventory.get_quantities]
    rw [hfiltered]
    simp [List.sum_cons, List.sum_nil]
    rfl
  have hkv : (wQuantA.key, (10:ℚ)) ∈ wInv.get_quantities [3] [wQuantA] := by
    rw [hgq]
    exact List.mem_singleton.mpr rfl
  exact ⟨hnodup, hkv, Inventory.get_quantities_filter_spec wInv [3] [wQuantA]
    hnodup wQuantA.key 10 hkv⟩
